/-
  Verification of the instagram-clone client's data-access and optimistic-UI
  logic, as a shallow embedding in Lean 4.

  Sources embedded:
  - `src/lib/api.ts` (in `src/src/hooks/use-mobile.ts`): `postsApi.getPosts`,
    `commentsApi.getComments`, `likesApi.likePost/unlikePost/isLiked`,
    `followsApi.followUser/unfollowUser/isFollowing`.
  - `src/components/PostCard.tsx` (in `src/src/components/CommentsDialog.tsx`):
    `PostCard.handleLike` with its `isLiking` re-entrancy guard.
  - `src/pages/Profile.tsx` (in `src/unnamed/part_003`): `Profile.handleFollow`
    with its `isOwnProfile` guard.
  - `supabase/schema.sql`: the `follows` table constraints
    `UNIQUE(follower_id, following_id)` and `CHECK (follower_id != following_id)`.

  The remote platform (Supabase) is modelled as a pure store `DB`; its query
  interface (filter-by-equality, ordering, range) is modelled by `List.filter`,
  `List.insertionSort`, `drop`/`take`. `ORDER BY` is modelled by a concrete
  sort producing one of the permutations the platform may return. Transport
  failures are modelled, where a claim needs them, by an explicit error
  response value.
-/
import Mathlib

/-- A platform (PostgREST) error, carrying its error code string
(e.g. "PGRST116" = no row found for a `.single()` request). -/
structure PlatformError where
  code : String
deriving DecidableEq, Repr

/-- The `{ data, error }` shape returned by a supabase `.single()` request. -/
structure SingleResp (α : Type) where
  data : Option α
  error : Option PlatformError
deriving DecidableEq, Repr

/-- A row of the `posts` table (the columns `getPosts` reads). -/
structure PostRow where
  id : String
  user_id : String
  created_at : Nat
deriving DecidableEq, Repr

/-- A row of the `likes` table (the columns the embedded code reads). -/
structure LikeRow where
  post_id : String
  user_id : String
deriving DecidableEq, Repr

/-- A row of the `comments` table (the columns the embedded code reads). -/
structure CommentRow where
  id : String
  post_id : String
  user_id : String
  content : String
  created_at : Nat
deriving DecidableEq, Repr

/-- A row of the `follows` table. -/
structure FollowRow where
  follower_id : String
  following_id : String
deriving DecidableEq, Repr

/-- The remote relational store, restricted to the tables the claims touch. -/
structure DB where
  posts : List PostRow
  likes : List LikeRow
  comments : List CommentRow
  follows : List FollowRow
deriving DecidableEq, Repr

/-- The shape `getPosts` returns per post: the row plus the derived,
non-persisted view fields `likes_count`, `comments_count`, `is_liked`. -/
structure PostView where
  post : PostRow
  likes_count : Nat
  comments_count : Nat
  is_liked : Bool
deriving DecidableEq, Repr

/-- One network query issued by `postsApi.getPosts`, for counting queries. -/
inductive ApiQuery
  | postsQ
  | likesQ
  | commentsQ
  | viewerLikesQ
deriving DecidableEq, Repr

/-- `Map.set m k v` on the JS `Map<string, number>` used by `getPosts`,
as an association list (first binding wins, set replaces in place). -/
def setA : List (String × Nat) → String → Nat → List (String × Nat)
  | [], k, v => [(k, v)]
  | (k2, v2) :: rest, k, v =>
      if k2 == k then (k, v) :: rest else (k2, v2) :: setA rest k v

/-- `m.get(k) || 0` on the JS map. -/
def getA : List (String × Nat) → String → Nat
  | [], _ => 0
  | (k2, v) :: rest, k => if k2 == k then v else getA rest k

/-- The per-post-id counting loop of `getPosts`:
`rows.forEach(r => map.set(r.post_id, (map.get(r.post_id) || 0) + 1))`. -/
def countByPostId (rows : List String) : List (String × Nat) :=
  rows.foldl (fun m pid => setA m pid (getA m pid + 1)) []

/-- Newest-first order on posts (`.order('created_at', { ascending: false })`). -/
def postDesc (a b : PostRow) : Prop := b.created_at ≤ a.created_at

instance : DecidableRel postDesc := fun a b => Nat.decLe b.created_at a.created_at

instance : IsTotal PostRow postDesc := ⟨fun a b => Nat.le_total b.created_at a.created_at⟩

instance : IsTrans PostRow postDesc := ⟨fun _ _ _ h1 h2 => Nat.le_trans h2 h1⟩

/-- The optional `.eq('user_id', userId)` filter of `getPosts`. -/
def feedFiltered (db : DB) (userId? : Option String) : List PostRow :=
  match userId? with
  | some u => db.posts.filter (fun p => p.user_id == u)
  | none => db.posts

/-- The one page of posts the posts query returns: filtered, ordered newest
first, then `.range(offset, offset + limit - 1)`. -/
def feedPage (db : DB) (limit offset : Nat) (userId? : Option String) : List PostRow :=
  (((feedFiltered db userId?).insertionSort postDesc).drop offset).take limit

/-- The batched likes query: all like rows whose `post_id` is in the page. -/
def fetchedLikes (db : DB) (postIds : List String) : List LikeRow :=
  db.likes.filter (fun l => postIds.contains l.post_id)

/-- The batched comments query: all comment rows whose `post_id` is in the page. -/
def fetchedComments (db : DB) (postIds : List String) : List CommentRow :=
  db.comments.filter (fun c => postIds.contains c.post_id)

/-- The viewer-likes query result mapped to post ids (`userLikes` in the
source); `[]` when no viewer is authenticated (the query is then skipped). -/
def fetchedUserLikes (db : DB) (postIds : List String) (viewer? : Option String) : List String :=
  match viewer? with
  | some uid =>
      (db.likes.filter (fun l => postIds.contains l.post_id && l.user_id == uid)).map
        (fun l => l.post_id)
  | none => []

/-- `postsApi.getPosts(limit, offset, userId?)` run by viewer `viewer?`
against store `db`. Returns the assembled page together with the list of
table queries it issued, in order. -/
def getPosts (db : DB) (viewer? : Option String) (limit offset : Nat)
    (userId? : Option String) : List PostView × List ApiQuery :=
  let page := feedPage db limit offset userId?
  if page.isEmpty then ([], [ApiQuery.postsQ])
  else
    let postIds := page.map (fun p => p.id)
    let likesData := fetchedLikes db postIds
    let commentsData := fetchedComments db postIds
    let userLikes := fetchedUserLikes db postIds viewer?
    let likesCountMap := countByPostId (likesData.map (fun l => l.post_id))
    let commentsCountMap := countByPostId (commentsData.map (fun c => c.post_id))
    let result := page.map (fun p =>
      { post := p
        likes_count := getA likesCountMap p.id
        comments_count := getA commentsCountMap p.id
        is_liked := userLikes.contains p.id })
    (result,
      [ApiQuery.postsQ, ApiQuery.likesQ, ApiQuery.commentsQ] ++
        (match viewer? with
         | some _ => [ApiQuery.viewerLikesQ]
         | none => []))

/-- Oldest-first order on comments (`.order('created_at', { ascending: true })`). -/
def commentAsc (a b : CommentRow) : Prop := a.created_at ≤ b.created_at

instance : DecidableRel commentAsc := fun a b => Nat.decLe a.created_at b.created_at

instance : IsTotal CommentRow commentAsc := ⟨fun a b => Nat.le_total a.created_at b.created_at⟩

instance : IsTrans CommentRow commentAsc := ⟨fun _ _ _ h1 h2 => Nat.le_trans h1 h2⟩

/-- `commentsApi.getComments(postId)`: all comments of the post, ordered by
creation time ascending. -/
def getComments (db : DB) (postId : String) : List CommentRow :=
  (db.comments.filter (fun c => c.post_id == postId)).insertionSort commentAsc

/-- The `CommentsDialog` comment list renders `comments.map(c => ...)` in list
order; the rendered thread is the sequence of comment ids in that order. -/
def renderedThread (cs : List CommentRow) : List String :=
  cs.map (fun c => c.id)

/-
  Error handling of the single-row lookups and mutations
  (`src/lib/api.ts`), modelled as pure handlers of the platform response.
-/

/-- `likesApi.isLiked`: `if (error && error.code !== 'PGRST116') throw error;
return !!data`. -/
def likesApi_isLiked (resp : SingleResp String) : Except PlatformError Bool :=
  match resp.error with
  | some e => if e.code != "PGRST116" then .error e else .ok resp.data.isSome
  | none => .ok resp.data.isSome

/-- `followsApi.isFollowing`: `if (error && error.code !== 'PGRST116') throw
error; return !!data`. -/
def followsApi_isFollowing (resp : SingleResp String) : Except PlatformError Bool :=
  match resp.error with
  | some e => if e.code != "PGRST116" then .error e else .ok resp.data.isSome
  | none => .ok resp.data.isSome

/-- `profilesApi.getProfile` (and every other `.single()` read outside the two
lookups above): `if (error) throw error; return data`. The row payload type is
abstracted. -/
def profilesApi_getProfile (resp : SingleResp α) : Except PlatformError (Option α) :=
  match resp.error with
  | some e => .error e
  | none => .ok resp.data

/-- `likesApi.likePost` error path: `if (error) throw error`. -/
def likesApi_likePost_err (error? : Option PlatformError) : Except PlatformError Unit :=
  match error? with
  | some e => .error e
  | none => .ok ()

/-- `followsApi.followUser` error path: `if (error) throw error`. -/
def followsApi_followUser_err (error? : Option PlatformError) : Except PlatformError Unit :=
  match error? with
  | some e => .error e
  | none => .ok ()

/-- `commentsApi.deleteComment` error path: `if (error) throw error`. -/
def commentsApi_deleteComment_err (error? : Option PlatformError) : Except PlatformError Unit :=
  match error? with
  | some e => .error e
  | none => .ok ()

/-- The like-state check inside `postsApi.getPost`:
`const { data: likeData } = await ...single(); isLiked = !!likeData` — the
error field of the response is discarded entirely. -/
def postsApi_getPost_likeCheck (resp : SingleResp String) : Bool :=
  resp.data.isSome

/-
  `PostCard.handleLike` (src/components/PostCard.tsx): optimistic like toggle
  with re-entrancy guard `isLiking` and revert on failure.
-/

/-- The `PostCard` local state the like handler touches. Counters are JS
numbers, modelled as integers. -/
structure CardState where
  isLiked : Bool
  likesCount : Int
  isLiking : Bool
deriving DecidableEq, Repr

/-- The mutation a like toggle submits. -/
inductive LikeMutation
  | likeM (postId userId : String)
  | unlikeM (postId userId : String)
deriving DecidableEq, Repr

/-- The synchronous prefix of `handleLike`, up to the `await`: the guard
`if (!user || isLiking) return`, then `setIsLiking(true)` and the optimistic
flip of `isLiked`/`likesCount`. `none` means the handler returned without
doing anything; otherwise the pending local state and the mutation now in
flight are returned. -/
def handleLikeStart (user? : Option String) (postId : String) (s : CardState) :
    Option (CardState × LikeMutation) :=
  match user? with
  | none => none
  | some uid =>
      if s.isLiking then none
      else
        some
          ({ isLiked := !s.isLiked
             likesCount := if s.isLiked then s.likesCount - 1 else s.likesCount + 1
             isLiking := true },
           if s.isLiked then .unlikeM postId uid else .likeM postId uid)

/-- The continuation of `handleLike` after the mutation settles: on success
only the `finally` block runs (`setIsLiking(false)`); on failure the `catch`
block restores the captured `previousLiked`/`previousCount` and then
`finally` runs. `previousLiked`/`previousCount` are the values captured
before the optimistic flip. -/
def handleLikeFinish (previousLiked : Bool) (previousCount : Int)
    (pending : CardState) (ok : Bool) : CardState :=
  if ok then { pending with isLiking := false }
  else { isLiked := previousLiked, likesCount := previousCount, isLiking := false }

/-- One click of the like control: the synchronous part of `handleLike`,
returning the new local state and the list of mutations issued (empty when
the guard made the click a no-op). -/
def likeClick (user? : Option String) (postId : String) (s : CardState) :
    CardState × List LikeMutation :=
  match handleLikeStart user? postId s with
  | none => (s, [])
  | some (pending, m) => (pending, [m])

/-
  `Profile.handleFollow` (src/pages/Profile.tsx): optimistic follow toggle,
  guarded by `if (!user || !profile || isOwnProfile) return`.
-/

/-- The `Profile` local state the follow handler touches. -/
structure FollowState where
  isFollowing : Bool
  followersCount : Int
deriving DecidableEq, Repr

/-- The mutation a follow toggle submits (`followUser(user.id, profile.id)` or
`unfollowUser(user.id, profile.id)`). -/
inductive FollowMutation
  | followM (followerId followingId : String)
  | unfollowM (followerId followingId : String)
deriving DecidableEq, Repr

/-- `isOwnProfile = currentProfile?.username === username || profile?.id ===
user?.id`. JS optional chaining on a missing object yields `undefined`, and
`undefined === undefined` is `true`; `Option` equality matches this
(`none == none` is `true`). -/
def isOwnProfile (currentUsername? : Option String) (username : String)
    (profileId? userId? : Option String) : Bool :=
  currentUsername? == some username || profileId? == userId?

/-- The synchronous prefix of `handleFollow`, up to the `await`: the guard,
then the optimistic flip of `isFollowing`/`followersCount`. `none` means the
handler returned without doing anything. -/
def handleFollowStart (userId? : Option String) (profileId? : Option String)
    (currentUsername? : Option String) (username : String) (s : FollowState) :
    Option (FollowState × FollowMutation) :=
  match userId?, profileId? with
  | some uid, some pid =>
      if isOwnProfile currentUsername? username (some pid) (some uid) then none
      else
        some
          ({ isFollowing := !s.isFollowing
             followersCount :=
               if s.isFollowing then s.followersCount - 1 else s.followersCount + 1 },
           if s.isFollowing then .unfollowM uid pid else .followM uid pid)
  | _, _ => none

/-- One click of the follow control: new local state and mutations issued. -/
def followClick (userId? : Option String) (profileId? : Option String)
    (currentUsername? : Option String) (username : String) (s : FollowState) :
    FollowState × List FollowMutation :=
  match handleFollowStart userId? profileId? currentUsername? username s with
  | none => (s, [])
  | some (pending, m) => (pending, [m])

/-
  Store-level mutations. The platform's mutation interface is insert /
  delete-by-filter, returning the affected rows or an error; a delete whose
  filter matches nothing succeeds with zero affected rows. Transport failures
  are outside this pure model.
-/

/-- An insert into `follows`, subject to the schema constraints
`CHECK (follower_id != following_id)` and `UNIQUE(follower_id, following_id)`
(`supabase/schema.sql`). -/
def followsInsert (rows : List FollowRow) (r : FollowRow) :
    Except PlatformError (List FollowRow) :=
  if r.follower_id == r.following_id then .error { code := "23514" }
  else if rows.any (fun x =>
      x.follower_id == r.follower_id && x.following_id == r.following_id) then
    .error { code := "23505" }
  else .ok (rows ++ [r])

/-- `likesApi.unlikePost(postId, userId)`: delete-by-filter
`.eq('post_id', postId).eq('user_id', userId)` on `likes`; succeeds whether
or not any row matched. -/
def unlikePost (db : DB) (postId userId : String) : Except PlatformError DB :=
  .ok { db with
        likes := db.likes.filter (fun l => !(l.post_id == postId && l.user_id == userId)) }

/-- `followsApi.unfollowUser(followerId, followingId)`: delete-by-filter on
`follows`; succeeds whether or not any row matched. -/
def unfollowUser (db : DB) (followerId followingId : String) : Except PlatformError DB :=
  .ok { db with
        follows := db.follows.filter (fun f =>
          !(f.follower_id == followerId && f.following_id == followingId)) }

/-
  Helper lemmas about the association-list counting map.
-/

lemma getA_setA_self (m : List (String × Nat)) (k : String) (v : Nat) :
    getA (setA m k v) k = v := by
  induction m with
  | nil => simp [setA, getA]
  | cons hd tl ih =>
    obtain ⟨k2, v2⟩ := hd
    by_cases h : k2 = k
    · simp [setA, h, getA]
    · simpa [setA, getA, h] using ih

lemma getA_setA_ne (m : List (String × Nat)) (k k' : String) (v : Nat) (h : k' ≠ k) :
    getA (setA m k v) k' = getA m k' := by
  induction m with
  | nil => simp [setA, getA, Ne.symm h]
  | cons hd tl ih =>
    obtain ⟨k2, v2⟩ := hd
    by_cases h2 : k2 = k
    · subst h2
      simp [setA, getA, Ne.symm h]
    · by_cases h3 : k2 = k'
      · simp [setA, getA, h2, h3, h]
      · simpa [setA, getA, h2, h3] using ih

lemma getA_countFold (rows : List String) (m : List (String × Nat)) (k : String) :
    getA (rows.foldl (fun m pid => setA m pid (getA m pid + 1)) m) k =
      getA m k + rows.count k := by
  induction rows generalizing m with
  | nil => simp
  | cons pid rest ih =>
    rw [List.foldl_cons, ih]
    by_cases h : pid = k
    · subst h
      rw [getA_setA_self]
      simp [List.count_cons]
      omega
    · rw [getA_setA_ne _ _ _ _ (Ne.symm h)]
      simp [List.count_cons, h]

lemma countByPostId_getA (rows : List String) (k : String) :
    getA (countByPostId rows) k = rows.count k := by
  have h := getA_countFold rows [] k
  simpa [countByPostId, getA] using h

/-- C1: toggling like on a post whose local state is not-liked sets the local
liked flag to true and increments the local likes counter by exactly 1 in the
synchronous (pre-resolution) part of `handleLike`; on mutation failure, both
the flag and the counter are restored to their exact captured pre-toggle
values. Symmetrically, a toggle starting from liked decrements by 1 and
reverts on failure. -/
theorem like_toggle_optimistic_and_reverts (s : CardState) (uid postId : String)
    (h : s.isLiking = false) :
    ∃ pending m,
      handleLikeStart (some uid) postId s = some (pending, m) ∧
      pending.isLiked = !s.isLiked ∧
      (s.isLiked = false →
        pending.isLiked = true ∧ pending.likesCount = s.likesCount + 1 ∧
          m = .likeM postId uid) ∧
      (s.isLiked = true →
        pending.isLiked = false ∧ pending.likesCount = s.likesCount - 1 ∧
          m = .unlikeM postId uid) ∧
      handleLikeFinish s.isLiked s.likesCount pending false =
        { isLiked := s.isLiked, likesCount := s.likesCount, isLiking := false } := by
  refine
    ⟨{ isLiked := !s.isLiked
       likesCount := if s.isLiked then s.likesCount - 1 else s.likesCount + 1
       isLiking := true },
     if s.isLiked then .unlikeM postId uid else .likeM postId uid,
     ?_, rfl, ?_, ?_, ?_⟩
  · simp [handleLikeStart, h]
  · intro hl; simp [hl]
  · intro hl; simp [hl]
  · simp [handleLikeFinish]

/-- Witness for C1 at a concrete not-liked state. -/
theorem like_toggle_optimistic_and_reverts_witness :
    ∃ pending m,
      handleLikeStart (some "u") "p" ⟨false, 5, false⟩ = some (pending, m) ∧
      pending.isLiked = !(⟨false, 5, false⟩ : CardState).isLiked ∧
      ((⟨false, 5, false⟩ : CardState).isLiked = false →
        pending.isLiked = true ∧
          pending.likesCount = (⟨false, 5, false⟩ : CardState).likesCount + 1 ∧
          m = .likeM "p" "u") ∧
      ((⟨false, 5, false⟩ : CardState).isLiked = true →
        pending.isLiked = false ∧
          pending.likesCount = (⟨false, 5, false⟩ : CardState).likesCount - 1 ∧
          m = .unlikeM "p" "u") ∧
      handleLikeFinish (⟨false, 5, false⟩ : CardState).isLiked
          (⟨false, 5, false⟩ : CardState).likesCount pending false =
        { isLiked := (⟨false, 5, false⟩ : CardState).isLiked,
          likesCount := (⟨false, 5, false⟩ : CardState).likesCount,
          isLiking := false } :=
  like_toggle_optimistic_and_reverts ⟨false, 5, false⟩ "u" "p" rfl

/-- C4: while a like/unlike toggle is pending (`isLiking` is true), any
further toggle on the same control is a no-op — local state is unchanged and
no mutation is issued; and every toggle that does start marks the control
pending, so at most one mutation per control is in flight. -/
theorem like_toggle_pending_noop (user? : Option String) (postId : String) (s : CardState) :
    (s.isLiking = true → likeClick user? postId s = (s, [])) ∧
    (∀ pending m, handleLikeStart user? postId s = some (pending, m) →
      pending.isLiking = true) := by
  constructor
  · intro h
    cases user? <;> simp [likeClick, handleLikeStart, h]
  · intro pending m hm
    cases user? with
    | none => simp [handleLikeStart] at hm
    | some uid =>
      by_cases h : s.isLiking
      · simp [handleLikeStart, h] at hm
      · simp only [handleLikeStart, h, if_neg, Bool.false_eq_true, if_false,
          Option.some.injEq, Prod.mk.injEq] at hm
        rw [← hm.1]

/-- Witness for C4: a click on a pending control changes nothing, and a click
that starts a toggle sets the pending flag. -/
theorem like_toggle_pending_noop_witness :
    likeClick (some "u") "p" ⟨false, 0, true⟩ = (⟨false, 0, true⟩, []) ∧
    (⟨true, 1, true⟩ : CardState).isLiking = true :=
  ⟨(like_toggle_pending_noop (some "u") "p" ⟨false, 0, true⟩).1 rfl,
   (like_toggle_pending_noop (some "u") "p" ⟨false, 0, false⟩).2
     ⟨true, 1, true⟩ (.likeM "p" "u") (by decide)⟩

/-- C5: the application layer never creates a self-follow. A follow attempt
where the viewer's id equals the profile's id is dropped by `handleFollow`'s
`isOwnProfile` guard before any mutation is issued, and the `follows` schema
`CHECK (follower_id != following_id)` rejects a self-follow row at the store,
so no such row ever comes into existence. -/
theorem no_self_follow (a : String) (currentUsername? : Option String)
    (username : String) (s : FollowState) :
    followClick (some a) (some a) currentUsername? username s = (s, []) ∧
    ∀ rows : List FollowRow,
      followsInsert rows { follower_id := a, following_id := a } =
        .error { code := "23514" } := by
  constructor
  · simp [followClick, handleFollowStart, isOwnProfile]
  · intro rows
    simp [followsInsert]

/-- C10: `unlikePost` and `unfollowUser` are delete-by-filter operations:
they succeed even when no matching row exists (in which case the store is
unchanged), and they are idempotent — a second call succeeds and leaves the
store state exactly as after the first. -/
theorem unlike_unfollow_idempotent (db : DB) (p u f g : String) :
    (∃ db2, unlikePost db p u = .ok db2 ∧ unlikePost db2 p u = .ok db2) ∧
    (db.likes.filter (fun l => l.post_id == p && l.user_id == u) = [] →
      unlikePost db p u = .ok db) ∧
    (∃ db3, unfollowUser db f g = .ok db3 ∧ unfollowUser db3 f g = .ok db3) ∧
    (db.follows.filter (fun x => x.follower_id == f && x.following_id == g) = [] →
      unfollowUser db f g = .ok db) := by
  refine ⟨⟨_, rfl, ?_⟩, ?_, ⟨_, rfl, ?_⟩, ?_⟩
  · simp only [unlikePost, Except.ok.injEq]
    congr 1
    exact List.filter_eq_self.mpr fun a ha => (List.mem_filter.mp ha).2
  · intro h
    rw [List.filter_eq_nil_iff] at h
    simp only [unlikePost, Except.ok.injEq]
    have hall : db.likes.filter (fun l => !(l.post_id == p && l.user_id == u)) = db.likes :=
      List.filter_eq_self.mpr fun a ha => by
        have hx := h a ha
        revert hx
        cases a.post_id == p && a.user_id == u <;> simp
    rw [hall]
  · simp only [unfollowUser, Except.ok.injEq]
    congr 1
    exact List.filter_eq_self.mpr fun a ha => (List.mem_filter.mp ha).2
  · intro h
    rw [List.filter_eq_nil_iff] at h
    simp only [unfollowUser, Except.ok.injEq]
    have hall : db.follows.filter
        (fun x => !(x.follower_id == f && x.following_id == g)) = db.follows :=
      List.filter_eq_self.mpr fun a ha => by
        have hx := h a ha
        revert hx
        cases a.follower_id == f && a.following_id == g <;> simp
    rw [hall]

/-- Witness for C10 at a store with no matching rows: both deletes succeed
and leave the store unchanged. -/
theorem unlike_unfollow_idempotent_witness :
    unlikePost ⟨[], [], [], []⟩ "p" "u" = .ok ⟨[], [], [], []⟩ ∧
    unfollowUser ⟨[], [], [], []⟩ "f" "g" = .ok ⟨[], [], [], []⟩ :=
  ⟨(unlike_unfollow_idempotent ⟨[], [], [], []⟩ "p" "u" "f" "g").2.1 rfl,
   (unlike_unfollow_idempotent ⟨[], [], [], []⟩ "p" "u" "f" "g").2.2.2 rfl⟩

/-- C6 counterexample: not one but two lookup paths treat the platform's
"no row found" code PGRST116 as a non-error empty result — `likesApi.isLiked`
and `followsApi.isFollowing` both return `ok false` on that error response
instead of failing. -/
theorem two_lookup_paths_tolerate_no_row :
    likesApi_isLiked { data := none, error := some { code := "PGRST116" } } = .ok false ∧
    followsApi_isFollowing { data := none, error := some { code := "PGRST116" } } =
      .ok false := by
  constructor <;> rfl

/-- C6 amended: exactly the two lookup paths `likesApi.isLiked` and
`followsApi.isFollowing` treat the "no row found" code PGRST116 as a
non-error empty result (and propagate every other code); the throwing
operations propagate every platform error without distinguishing
constraint-violation codes, while the like-state check inside
`postsApi.getPost` discards its lookup's error entirely. -/
theorem lookup_error_tolerance (e : PlatformError) (d : Option String) :
    (likesApi_isLiked { data := d, error := some e } =
      if e.code = "PGRST116" then .ok d.isSome else .error e) ∧
    (followsApi_isFollowing { data := d, error := some e } =
      if e.code = "PGRST116" then .ok d.isSome else .error e) ∧
    (∀ (α : Type) (dp : Option α),
      profilesApi_getProfile { data := dp, error := some e } = .error e) ∧
    likesApi_likePost_err (some e) = .error e ∧
    followsApi_followUser_err (some e) = .error e ∧
    commentsApi_deleteComment_err (some e) = .error e ∧
    postsApi_getPost_likeCheck { data := d, error := some e } = d.isSome := by
  refine ⟨?_, ?_, fun α dp => rfl, rfl, rfl, rfl, rfl⟩ <;>
  · by_cases h : e.code = "PGRST116" <;>
      simp [likesApi_isLiked, followsApi_isFollowing, h]

/-- C9: the comment thread loads all of the post's comments ordered by
creation time ascending and renders them in that order; in particular, for
comments A (t=1), B (t=2), C (t=3) the rendered order is A, B, C. -/
theorem comments_rendered_oldest_first :
    (∀ (db : DB) (pid : String),
      List.Perm (getComments db pid) (db.comments.filter (fun c => c.post_id == pid)) ∧
      List.Sorted commentAsc (getComments db pid) ∧
      renderedThread (getComments db pid) = (getComments db pid).map (fun c => c.id)) ∧
    renderedThread (getComments
      { posts := []
        likes := []
        comments :=
          [{ id := "C", post_id := "p", user_id := "u", content := "c3", created_at := 3 },
           { id := "A", post_id := "p", user_id := "u", content := "c1", created_at := 1 },
           { id := "B", post_id := "p", user_id := "u", content := "c2", created_at := 2 }]
        follows := [] } "p") = ["A", "B", "C"] := by
  constructor
  · intro db pid
    exact ⟨List.perm_insertionSort commentAsc _,
      List.sorted_insertionSort commentAsc _, rfl⟩
  · decide

/-- The queries `getPosts` issues, by case: only the posts query when the
page is empty; otherwise one likes, one comments and, for an authenticated
viewer, one viewer-likes query in addition. -/
lemma getPosts_trace (db : DB) (viewer? : Option String) (limit offset : Nat)
    (userId? : Option String) :
    (getPosts db viewer? limit offset userId?).2 =
      if (feedPage db limit offset userId?).isEmpty then [ApiQuery.postsQ]
      else [ApiQuery.postsQ, ApiQuery.likesQ, ApiQuery.commentsQ] ++
        (match viewer? with
         | some _ => [ApiQuery.viewerLikesQ]
         | none => []) := by
  unfold getPosts
  dsimp only
  split <;> rfl

/-- The result of `getPosts` as a map over the fetched page. -/
lemma getPosts_result (db : DB) (viewer? : Option String) (limit offset : Nat)
    (userId? : Option String) :
    (getPosts db viewer? limit offset userId?).1 =
      (feedPage db limit offset userId?).map (fun p =>
        { post := p
          likes_count := getA (countByPostId ((fetchedLikes db
              ((feedPage db limit offset userId?).map (fun q => q.id))).map
              (fun l => l.post_id))) p.id
          comments_count := getA (countByPostId ((fetchedComments db
              ((feedPage db limit offset userId?).map (fun q => q.id))).map
              (fun c => c.post_id))) p.id
          is_liked := (fetchedUserLikes db
              ((feedPage db limit offset userId?).map (fun q => q.id))
              viewer?).contains p.id }) := by
  unfold getPosts
  dsimp only
  split
  · next h =>
    rw [List.isEmpty_iff.mp h]
    rfl
  · rfl

/-- C2: for every page size and offset, one `getPosts` call issues at most
one posts query, at most one batched likes query, at most one batched
comments query and, only when a viewer is authenticated, at most one
viewer-likes query; in total at most four queries, a bound independent of
the page size. -/
theorem feed_queries_bounded (db : DB) (viewer? : Option String) (limit offset : Nat)
    (userId? : Option String) :
    ((getPosts db viewer? limit offset userId?).2.count ApiQuery.postsQ ≤ 1) ∧
    ((getPosts db viewer? limit offset userId?).2.count ApiQuery.likesQ ≤ 1) ∧
    ((getPosts db viewer? limit offset userId?).2.count ApiQuery.commentsQ ≤ 1) ∧
    ((getPosts db viewer? limit offset userId?).2.count ApiQuery.viewerLikesQ ≤ 1) ∧
    (viewer? = none →
      (getPosts db viewer? limit offset userId?).2.count ApiQuery.viewerLikesQ = 0) ∧
    ((getPosts db viewer? limit offset userId?).2.length ≤ 4) := by
  cases viewer? <;>
    [skip; skip] <;>
    simp only [getPosts_trace] <;>
    by_cases h : (feedPage db limit offset userId?).isEmpty <;>
    simp [h, List.count_cons]

/-- Witness for C2: an unauthenticated call issues no viewer-likes query. -/
theorem feed_queries_bounded_witness :
    (getPosts ⟨[], [], [], []⟩ none 10 0 none).2.count ApiQuery.viewerLikesQ = 0 :=
  (feed_queries_bounded ⟨[], [], [], []⟩ none 10 0 none).2.2.2.2.1 rfl

/-- C7: with no authenticated viewer, `getPosts` never issues the
viewer-likes query, and every post in the result has `is_liked = false`. -/
theorem unauthenticated_feed_not_liked (db : DB) (limit offset : Nat)
    (userId? : Option String) :
    ((getPosts db none limit offset userId?).2.count ApiQuery.viewerLikesQ = 0) ∧
    ∀ pv ∈ (getPosts db none limit offset userId?).1, pv.is_liked = false := by
  constructor
  · rw [getPosts_trace]
    by_cases h : (feedPage db limit offset userId?).isEmpty <;> simp [h]
  · intro pv hpv
    rw [getPosts_result] at hpv
    obtain ⟨p, hp, rfl⟩ := List.mem_map.mp hpv
    rfl

/-- Witness for C7 on a store with one post: its view is not liked. -/
theorem unauthenticated_feed_not_liked_witness :
    (PostView.mk ⟨"p1", "u1", 1⟩ 0 0 false).is_liked = false :=
  (unauthenticated_feed_not_liked ⟨[⟨"p1", "u1", 1⟩], [], [], []⟩ 10 0 none).2
    ⟨⟨"p1", "u1", 1⟩, 0, 0, false⟩ (by decide)

/-- C8: when the posts query returns an empty page, `getPosts` returns the
empty sequence and issues none of the batched likes/comments/viewer-likes
queries. -/
theorem empty_page_short_circuits (db : DB) (viewer? : Option String)
    (limit offset : Nat) (userId? : Option String)
    (h : feedPage db limit offset userId? = []) :
    getPosts db viewer? limit offset userId? = ([], [ApiQuery.postsQ]) := by
  unfold getPosts
  dsimp only
  rw [h]
  rfl

/-- Witness for C8 on an empty store. -/
theorem empty_page_short_circuits_witness :
    getPosts ⟨[], [], [], []⟩ (some "v") 10 0 none = ([], [ApiQuery.postsQ]) :=
  empty_page_short_circuits ⟨[], [], [], []⟩ (some "v") 10 0 none rfl

/-- C3: each post in the `getPosts` result carries `likes_count` equal to the
number of fetched like rows with that post's id, `comments_count` equal to
the number of fetched comment rows with that post's id, and `is_liked` true
exactly when the authenticated viewer has a like row for that post; the
result lists the same posts in the same newest-first order as the posts
query returned them. -/
theorem feed_counts_correct (db : DB) (viewer? : Option String) (limit offset : Nat)
    (userId? : Option String) :
    ((getPosts db viewer? limit offset userId?).1.map (fun pv => pv.post) =
      feedPage db limit offset userId?) ∧
    List.Sorted postDesc (feedPage db limit offset userId?) ∧
    ∀ pv ∈ (getPosts db viewer? limit offset userId?).1,
      pv.likes_count =
        (fetchedLikes db ((feedPage db limit offset userId?).map (fun q => q.id))).countP
          (fun l => l.post_id == pv.post.id) ∧
      pv.comments_count =
        (fetchedComments db
            ((feedPage db limit offset userId?).map (fun q => q.id))).countP
          (fun c => c.post_id == pv.post.id) ∧
      ∀ uid, viewer? = some uid →
        (pv.is_liked = true ↔
          ∃ l ∈ db.likes, l.post_id = pv.post.id ∧ l.user_id = uid) := by
  refine ⟨?_, ?_, ?_⟩
  · rw [getPosts_result, List.map_map]
    exact List.map_id _
  · have hs : List.Sorted postDesc ((feedFiltered db userId?).insertionSort postDesc) :=
      List.sorted_insertionSort postDesc _
    exact List.Pairwise.sublist
      ((List.take_sublist _ _).trans (List.drop_sublist _ _)) hs
  · intro pv hpv
    rw [getPosts_result] at hpv
    obtain ⟨p, hp, rfl⟩ := List.mem_map.mp hpv
    refine ⟨?_, ?_, ?_⟩
    · show getA (countByPostId ((fetchedLikes db
          ((feedPage db limit offset userId?).map (fun q => q.id))).map
          (fun l => l.post_id))) p.id = _
      rw [countByPostId_getA, List.count_eq_countP, List.countP_map]
      rfl
    · show getA (countByPostId ((fetchedComments db
          ((feedPage db limit offset userId?).map (fun q => q.id))).map
          (fun c => c.post_id))) p.id = _
      rw [countByPostId_getA, List.count_eq_countP, List.countP_map]
      rfl
    · intro uid hv
      subst hv
      show ((fetchedUserLikes db
          ((feedPage db limit offset userId?).map (fun q => q.id))
          (some uid)).contains p.id = true) ↔ _
      rw [List.elem_iff]
      unfold fetchedUserLikes
      constructor
      · intro hmem
        obtain ⟨l, hl, hpid⟩ := List.mem_map.mp hmem
        obtain ⟨hldb, hprops⟩ := List.mem_filter.mp hl
        rw [Bool.and_eq_true] at hprops
        exact ⟨l, hldb, hpid, by simpa using hprops.2⟩
      · rintro ⟨l, hldb, hpid, huid⟩
        refine List.mem_map.mpr ⟨l, List.mem_filter.mpr ⟨hldb, ?_⟩, hpid⟩
        rw [Bool.and_eq_true]
        refine ⟨?_, by simp [huid]⟩
        rw [List.elem_iff, hpid]
        exact List.mem_map.mpr ⟨p, hp, rfl⟩

/-- Witness for C3 on a one-post store whose viewer has liked the post. -/
theorem feed_counts_correct_witness :
    (PostView.mk ⟨"p1", "u1", 1⟩ 1 1 true).is_liked = true ↔
      ∃ l ∈ [LikeRow.mk "p1" "v"], l.post_id = "p1" ∧ l.user_id = "v" :=
  ((feed_counts_correct
      ⟨[⟨"p1", "u1", 1⟩], [⟨"p1", "v"⟩], [⟨"c1", "p1", "u2", "hi", 5⟩], []⟩
      (some "v") 10 0 none).2.2
    ⟨⟨"p1", "u1", 1⟩, 1, 1, true⟩ (by decide)).2.2 "v" rfl
